import Mathlib

/-!
Verification development for the EdgeTX Buddy firmware flash-job core.

The repository slice under study contains the `ZipHTTPRangeReader` class
(src/src/shared/backend/utils/ZipHTTPRangeReader.ts), the `cloudTargets`
GraphQL resolver, and the test suite of the flash-job engine.  The
definitions below embed those pieces; components of the engine whose
implementation is not part of the slice (the flash-job state machine, the
DFU session adapter, device-identifier derivation, the job manager) are
modelled from the design document, and each such definition says so in its
doc comment.
-/

namespace EdgeTxBuddy

/-- Error taxonomy of the design document (section 7). -/
inductive FlashError where
  | deviceNotFound
  | sourceUnavailable
  | entryNotFound
  | firmwareNotRegistered
  | unprotectTimeout
  | transferError (msg : String)
deriving Repr, DecidableEq

/-- An HTTP request as issued by `ZipHTTPRangeReader`: a method, the target
url, and an optional byte range `bytes=a-b` rendered from the pair `(a, b)`. -/
structure HttpRequest where
  method : String
  url : String
  range : Option (Nat × Nat)
deriving Repr, DecidableEq

/-- An HTTP response as consumed by `ZipHTTPRangeReader`: a status code, the
parsed `content-length` header when present and numeric, and the body bytes. -/
structure HttpResponse where
  status : Nat
  contentLength : Option Nat
  body : List Nat
deriving Repr, DecidableEq

/-- `Response.ok` of the fetch API: status in the 2xx range. -/
def respOk (r : HttpResponse) : Bool :=
  200 ≤ r.status && r.status ≤ 299

/-- State of a `ZipHTTPRangeReader` instance: the archive url and the cached
length (`undefined` until the first successful `getLength`). -/
structure ZipHTTPRangeReader where
  url : String
  length : Option Nat
deriving Repr, DecidableEq

/-- `ZipHTTPRangeReader.getLength`: when no length is cached, issue one HEAD
request, fail unless the response is ok and carries a numeric
`content-length`, and cache the parsed length; when a length is cached,
return it with no request.  The network is an oracle `net` from requests to
responses; the second component of the result lists the requests issued. -/
def getLength (net : HttpRequest → HttpResponse) (self : ZipHTTPRangeReader) :
    Except FlashError (Nat × ZipHTTPRangeReader) × List HttpRequest :=
  match self.length with
  | some n => (Except.ok (n, self), [])
  | none =>
    let req : HttpRequest := { method := "HEAD", url := self.url, range := none }
    let resp := net req
    if respOk resp then
      match resp.contentLength with
      | some n => (Except.ok (n, { self with length := some n }), [req])
      | none => (Except.error FlashError.sourceUnavailable, [req])
    else (Except.error FlashError.sourceUnavailable, [req])

/-- `ZipHTTPRangeReader.read`: a zero-size read returns an empty buffer with
no request; otherwise one GET request is issued with the range header
`bytes=offset-(offset+size-1)`, the body is returned when the response is
ok, and the read fails otherwise. -/
def read (net : HttpRequest → HttpResponse) (self : ZipHTTPRangeReader)
    (offset size : Nat) : Except FlashError (List Nat) × List HttpRequest :=
  if size = 0 then (Except.ok [], [])
  else
    let req : HttpRequest :=
      { method := "GET", url := self.url, range := some (offset, offset + size - 1) }
    let resp := net req
    if respOk resp then (Except.ok resp.body, [req])
    else (Except.error FlashError.sourceUnavailable, [req])

/-- C6: for every offset, a read of size 0 returns the empty buffer and
issues no network request. -/
theorem read_zero_size (net : HttpRequest → HttpResponse)
    (self : ZipHTTPRangeReader) (offset : Nat) :
    read net self offset 0 = (Except.ok [], []) := rfl

/-- C7: `getLength` performs its HEAD request at most once and caches the
result: whenever a call succeeds, that call issued at most one request, every
request it issued was a HEAD request, and a subsequent call on the resulting
state issues no request and returns the same byte length. -/
theorem getLength_cached (net : HttpRequest → HttpResponse)
    (self : ZipHTTPRangeReader) (n : Nat) (self' : ZipHTTPRangeReader)
    (reqs : List HttpRequest)
    (h : getLength net self = (Except.ok (n, self'), reqs)) :
    reqs.length ≤ 1 ∧ (∀ r ∈ reqs, r.method = "HEAD") ∧
      getLength net self' = (Except.ok (n, self'), []) := by
  cases hl : self.length with
  | some m =>
    have h0 : getLength net self = (Except.ok (m, self), []) := by
      unfold getLength; rw [hl]
    rw [h0] at h
    simp only [Prod.mk.injEq, Except.ok.injEq] at h
    obtain ⟨⟨hn, hs⟩, hr⟩ := h
    subst hn; subst hs
    refine ⟨by simp [← hr], by simp [← hr], ?_⟩
    rw [h0]
  | none =>
    by_cases hok :
        respOk (net { method := "HEAD", url := self.url, range := none }) = true
    · cases hcl : (net { method := "HEAD", url := self.url, range := none }).contentLength with
      | some k =>
        have h0 : getLength net self =
            (Except.ok (k, { self with length := some k }),
              [{ method := "HEAD", url := self.url, range := none }]) := by
          unfold getLength
          rw [hl]
          simp only [hok, if_true, hcl]
        rw [h0] at h
        simp only [Prod.mk.injEq, Except.ok.injEq] at h
        obtain ⟨⟨hn, hs⟩, hr⟩ := h
        subst hn; subst hs
        refine ⟨by simp [← hr], ?_, ?_⟩
        · intro r hri
          rw [← hr] at hri
          simp only [List.mem_singleton] at hri
          rw [hri]
        · unfold getLength
          rfl
      | none =>
        have h0 : getLength net self =
            (Except.error FlashError.sourceUnavailable,
              [{ method := "HEAD", url := self.url, range := none }]) := by
          unfold getLength
          rw [hl]
          simp only [hok, if_true, hcl]
        rw [h0] at h
        simp at h
    · have h0 : getLength net self =
          (Except.error FlashError.sourceUnavailable,
            [{ method := "HEAD", url := self.url, range := none }]) := by
        unfold getLength
        rw [hl]
        simp only [Bool.not_eq_true] at hok
        simp [hok]
      rw [h0] at h
      simp at h

/-- A network oracle answering every request with status 200 and a
content-length of 42. -/
def headOkNet : HttpRequest → HttpResponse :=
  fun _ => { status := 200, contentLength := some 42, body := [] }

/-- Witness for C7 at a concrete reader and network. -/
theorem getLength_cached_witness :
    ([({ method := "HEAD", url := "u", range := none } : HttpRequest)]).length ≤ 1 ∧
      (∀ r ∈ [({ method := "HEAD", url := "u", range := none } : HttpRequest)],
        r.method = "HEAD") ∧
      getLength headOkNet { url := "u", length := some 42 } =
        (Except.ok (42, ({ url := "u", length := some 42 } : ZipHTTPRangeReader)), []) :=
  getLength_cached headOkNet { url := "u", length := none } 42
    { url := "u", length := some 42 }
    [{ method := "HEAD", url := "u", range := none }] rfl

/-- C8: for every offset and every positive size, `read` issues exactly one
request, that request carries the byte-range header for
`offset ... offset+size-1`, and whenever the response to that request is not
ok (not 2xx) the read fails with `SourceUnavailable`. -/
theorem read_range_request (net : HttpRequest → HttpResponse)
    (self : ZipHTTPRangeReader) (offset size : Nat) (hs : 0 < size) :
    (read net self offset size).2 =
      [{ method := "GET", url := self.url, range := some (offset, offset + size - 1) }] ∧
    (respOk (net { method := "GET", url := self.url,
                   range := some (offset, offset + size - 1) }) = false →
      (read net self offset size).1 = Except.error FlashError.sourceUnavailable) := by
  have hsz : ¬size = 0 := Nat.pos_iff_ne_zero.mp hs
  unfold read
  rw [if_neg hsz]
  constructor
  · by_cases hok : respOk (net { method := "GET", url := self.url,
                                 range := some (offset, offset + size - 1) }) = true
    · simp only [hok, if_true]
    · simp [hok]
  · intro hfail
    simp [hfail]

/-- A network oracle answering every request with status 404. -/
def net404 : HttpRequest → HttpResponse :=
  fun _ => { status := 404, contentLength := none, body := [] }

/-- Witness for C8 at a concrete reader, offset 3 and size 4, against a
network that answers 404. -/
theorem read_range_request_witness :
    (read net404 { url := "u", length := none } 3 4).2 =
      [{ method := "GET", url := "u", range := some (3, 6) }] ∧
    (respOk (net404 { method := "GET", url := "u", range := some (3, 6) }) = false →
      (read net404 { url := "u", length := none } 3 4).1 =
        Except.error FlashError.sourceUnavailable) :=
  read_range_request net404 { url := "u", length := none } 3 4 (by decide)

/-- One hexadecimal digit in uppercase. -/
def hexDigit (n : Nat) : Char :=
  if n < 10 then Char.ofNat (48 + n) else Char.ofNat (55 + n)

/-- Modelled from the spec: the zero-padded four-hex-digit uppercase rendering
used by the device identifier (the device-identifier derivation is not under
src, only its test suite; section 6 of the design document gives the
format). -/
def hex4 (n : Nat) : String :=
  String.mk [hexDigit (n / 4096 % 16), hexDigit (n / 256 % 16),
    hexDigit (n / 16 % 16), hexDigit (n % 16)]

/-- Modelled from the spec: device identifier derivation — the serial number
when present, otherwise vendor and product id joined as 0xVVVV:0xPPPP. -/
def deviceId (serialNumber : Option String) (vendorId productId : Nat) : String :=
  match serialNumber with
  | some s => s
  | none => "0x" ++ hex4 vendorId ++ ":0x" ++ hex4 productId

/-- C5: the derived device identifier equals the serial number when present,
and otherwise joins vendor and product id as zero-padded four-hex-digit
uppercase strings; in particular vendor 0x234 and product 0x567 with no
serial yield 0x0234:0x0567 (and 0xabc with 0xdef yield 0x0ABC:0x0DEF, as in
the test suite). -/
theorem deviceId_spec :
    (∀ s v p, deviceId (some s) v p = s) ∧
    (∀ v p, deviceId none v p = "0x" ++ hex4 v ++ ":0x" ++ hex4 p) ∧
    deviceId none 0x234 0x567 = "0x0234:0x0567" ∧
    deviceId none 0xabc 0xdef = "0x0ABC:0x0DEF" := by
  refine ⟨fun s v p => rfl, fun v p => rfl, ?_, ?_⟩ <;> decide

/-- A GitHub release as consumed by the `cloudTargets` resolver: the fields
of the release API object that the resolver reads. -/
structure GithubRelease where
  tag_name : String
  name : Option String
  body_text : Option String
  prerelease : Bool
  published_at : Option String
  created_at : String
deriving Repr, DecidableEq

/-- A release entry of the cloud-build targets document: its sha and its
optional excluded-target list. -/
structure CloudRelease where
  sha : String
  exclude_targets : Option (List String)
deriving Repr, DecidableEq

/-- A release of the `CloudTargets` GraphQL object. -/
structure Release where
  id : String
  name : String
  description : Option String
  isPrerelease : Bool
  timestamp : String
  sha : String
  excludeTargets : List String
deriving Repr, DecidableEq

/-- The releases computation of the `cloudTargets` resolver: keep the GitHub
releases whose tag name is a key of the cloud-build releases map, and build
each result from the GitHub release together with the cloud-build entry of
the same tag.  The cloud-build releases map is embedded as an association
list. -/
def cloudTargetsReleases (cloudReleases : List (String × CloudRelease))
    (githubReleases : List GithubRelease) : List Release :=
  (githubReleases.filter fun r => (cloudReleases.lookup r.tag_name).isSome).map
    fun r =>
      let cloudRelease := (cloudReleases.lookup r.tag_name).getD
        { sha := "", exclude_targets := none }
      { id := r.tag_name
        name := r.name.getD r.tag_name
        description := r.body_text
        isPrerelease := r.prerelease
        timestamp := r.published_at.getD r.created_at
        sha := cloudRelease.sha
        excludeTargets := cloudRelease.exclude_targets.getD [] }

/-- C10: a release is in the `cloudTargets` result exactly when it is built
from a GitHub release whose tag name is also a cloud-build release (the
intersection of the two lists), with the sha taken from the cloud-build
release and excludeTargets defaulting to the empty list when absent. -/
theorem cloudTargets_releases_spec (cloudReleases : List (String × CloudRelease))
    (gh : List GithubRelease) (rel : Release) :
    rel ∈ cloudTargetsReleases cloudReleases gh ↔
      ∃ r, r ∈ gh ∧ ∃ c, cloudReleases.lookup r.tag_name = some c ∧
        rel.id = r.tag_name ∧ rel.name = r.name.getD r.tag_name ∧
        rel.description = r.body_text ∧ rel.isPrerelease = r.prerelease ∧
        rel.timestamp = r.published_at.getD r.created_at ∧
        rel.sha = c.sha ∧ rel.excludeTargets = c.exclude_targets.getD [] := by
  constructor
  · intro hmem
    unfold cloudTargetsReleases at hmem
    rw [List.mem_map] at hmem
    obtain ⟨r, hr, heq⟩ := hmem
    rw [List.mem_filter] at hr
    obtain ⟨hrg, hp⟩ := hr
    obtain ⟨c, hc⟩ := Option.isSome_iff_exists.mp hp
    refine ⟨r, hrg, c, hc, ?_⟩
    rw [← heq]
    simp [hc]
  · rintro ⟨r, hrg, c, hc, h1, h2, h3, h4, h5, h6, h7⟩
    unfold cloudTargetsReleases
    rw [List.mem_map]
    refine ⟨r, ?_, ?_⟩
    · rw [List.mem_filter]
      exact ⟨hrg, by rw [hc]; rfl⟩
    · cases rel
      simp_all [hc]

/-- Status of one stage of a flash job (section 3 of the design document). -/
structure StageStatus where
  started : Bool
  completed : Bool
  progress : Nat
  error : Option FlashError
deriving Repr, DecidableEq

/-- An un-started stage, as in the initial snapshot. -/
def freshStage : StageStatus :=
  { started := false, completed := false, progress := 0, error := none }

/-- A firmware descriptor as consumed from the request layer. -/
structure FirmwareDescriptor where
  source : String
  target : String
  version : String
deriving Repr, DecidableEq

/-- A flash-job snapshot: identity, firmware descriptor, cancellation flag
and the five stages; build and download are absent (`none`) when not
applicable to the firmware source. -/
structure FlashJob where
  id : String
  deviceId : String
  firmware : FirmwareDescriptor
  cancelled : Bool
  connect : StageStatus
  build : Option StageStatus
  download : Option StageStatus
  erase : StageStatus
  flash : StageStatus
deriving Repr, DecidableEq

/-- Whether an optional stage carries an error. -/
def stageErrored (s : Option StageStatus) : Bool :=
  match s with
  | some st => st.error.isSome
  | none => false

/-- Whether any stage of the job carries an error. -/
def hasError (j : FlashJob) : Bool :=
  j.connect.error.isSome || stageErrored j.build || stageErrored j.download ||
    j.erase.error.isSome || j.flash.error.isSome

/-- The overall outcome of a job derived from its stages. -/
inductive JobOutcome where
  | running
  | succeeded
  | failed
deriving Repr, DecidableEq

/-- Modelled from the spec: a job is failed on any stage error, succeeded
once the flash stage completed, and running otherwise (section 4.5). -/
def jobOutcome (j : FlashJob) : JobOutcome :=
  if hasError j then JobOutcome.failed
  else if j.flash.completed then JobOutcome.succeeded
  else JobOutcome.running

/-- Modelled from the spec: a job is terminal once it has failed, succeeded
or been cancelled (section 4.5). -/
def isTerminal (j : FlashJob) : Bool :=
  match jobOutcome j with
  | JobOutcome.running => j.cancelled
  | _ => true

/-- Modelled from the spec: `FlashJobManager.cancel` — cancelling an
already-terminal job is a no-op, otherwise the cancelled flag is recorded
(section 4.6; the manager implementation is not under src, only its test
suite). -/
def cancelJob (j : FlashJob) : FlashJob :=
  if isTerminal j then j else { j with cancelled := true }

/-- C9: cancellation is idempotent on terminal jobs — cancelling a terminal
job is a no-op, and cancelling it twice yields the same terminal snapshot
both times. -/
theorem cancel_terminal_idempotent (j : FlashJob) (h : isTerminal j = true) :
    cancelJob j = j ∧ cancelJob (cancelJob j) = cancelJob j := by
  have h1 : cancelJob j = j := by simp [cancelJob, h]
  exact ⟨h1, by rw [h1, h1]⟩

/-- A concrete job that has reached the succeeded terminal state, with the
stage values of the final snapshot of the release-flash test. -/
def succeededJob : FlashJob :=
  { id := "job1"
    deviceId := "some-device-id"
    firmware := { source := "releases", target := "nv14", version := "v2.5.0" }
    cancelled := false
    connect := { started := true, completed := true, progress := 0, error := none }
    build := none
    download := some { started := true, completed := true, progress := 100, error := none }
    erase := { started := true, completed := true, progress := 100, error := none }
    flash := { started := true, completed := true, progress := 50, error := none } }

/-- Witness for C9 at the concrete succeeded job. -/
theorem cancel_terminal_idempotent_witness :
    cancelJob succeededJob = succeededJob ∧
      cancelJob (cancelJob succeededJob) = cancelJob succeededJob :=
  cancel_terminal_idempotent succeededJob (by decide)

/-- A DFU driver phase event as consumed by the job (section 6 of the design
document and the mocked event stream of the test suite). -/
inductive DfuEvent where
  | eraseStart
  | eraseProcess (current total : Nat)
  | eraseEnd
  | writeStart
  | writeProcess (current total : Nat)
  | writeEnd
  | sessionEnd
deriving Repr, DecidableEq

/-- Modelled from the spec: the mapping of DFU driver phase events onto stage
status — start marks the stage started, process sets the percentage progress
from current and total, and end marks the stage completed (sections 4.5 and
6; the FlashJob implementation is not under src, only its test suite, whose
observed snapshots this mapping reproduces). -/
def applyDfuEvent (j : FlashJob) (e : DfuEvent) : FlashJob :=
  match e with
  | DfuEvent.eraseStart => { j with erase := { j.erase with started := true } }
  | DfuEvent.eraseProcess current total =>
      { j with erase := { j.erase with progress := current * 100 / total } }
  | DfuEvent.eraseEnd =>
      { j with erase := { j.erase with completed := true, progress := 100 } }
  | DfuEvent.writeStart => { j with flash := { j.flash with started := true } }
  | DfuEvent.writeProcess current total =>
      { j with flash := { j.flash with progress := current * 100 / total } }
  | DfuEvent.writeEnd => { j with flash := { j.flash with completed := true } }
  | DfuEvent.sessionEnd => j

/-- Fold a sequence of DFU driver events into a job snapshot. -/
def applyDfuEvents (j : FlashJob) (es : List DfuEvent) : FlashJob :=
  es.foldl applyDfuEvent j

/-- C1: from a job whose erase stage is fresh, the event sequence
erase/start, erase/process(50,100), erase/end produces snapshots with
erase started and progress 0, then progress 50, then completed with
progress 100, and flash.started stays false in all three snapshots until a
subsequent write/start event sets it. -/
theorem erase_event_sequence (j : FlashJob)
    (he : j.erase = freshStage) (hf : j.flash.started = false) :
    (applyDfuEvents j [DfuEvent.eraseStart]).erase.started = true ∧
    (applyDfuEvents j [DfuEvent.eraseStart]).erase.progress = 0 ∧
    (applyDfuEvents j [DfuEvent.eraseStart,
      DfuEvent.eraseProcess 50 100]).erase.started = true ∧
    (applyDfuEvents j [DfuEvent.eraseStart,
      DfuEvent.eraseProcess 50 100]).erase.progress = 50 ∧
    (applyDfuEvents j [DfuEvent.eraseStart, DfuEvent.eraseProcess 50 100,
      DfuEvent.eraseEnd]).erase.completed = true ∧
    (applyDfuEvents j [DfuEvent.eraseStart, DfuEvent.eraseProcess 50 100,
      DfuEvent.eraseEnd]).erase.progress = 100 ∧
    (applyDfuEvents j [DfuEvent.eraseStart]).flash.started = false ∧
    (applyDfuEvents j [DfuEvent.eraseStart,
      DfuEvent.eraseProcess 50 100]).flash.started = false ∧
    (applyDfuEvents j [DfuEvent.eraseStart, DfuEvent.eraseProcess 50 100,
      DfuEvent.eraseEnd]).flash.started = false ∧
    (applyDfuEvents j [DfuEvent.eraseStart, DfuEvent.eraseProcess 50 100,
      DfuEvent.eraseEnd, DfuEvent.writeStart]).flash.started = true := by
  simp [applyDfuEvents, applyDfuEvent, he, hf, freshStage]

/-- A concrete job about to enter the erase stage: connect and download
completed, erase and flash fresh. -/
def preEraseJob : FlashJob :=
  { id := "job1"
    deviceId := "some-device-id"
    firmware := { source := "releases", target := "nv14", version := "v2.5.0" }
    cancelled := false
    connect := { started := true, completed := true, progress := 0, error := none }
    build := none
    download := some { started := true, completed := true, progress := 100, error := none }
    erase := freshStage
    flash := freshStage }

/-- Witness for C1 at the concrete pre-erase job. -/
theorem erase_event_sequence_witness :
    (applyDfuEvents preEraseJob [DfuEvent.eraseStart]).erase.started = true ∧
    (applyDfuEvents preEraseJob [DfuEvent.eraseStart]).erase.progress = 0 ∧
    (applyDfuEvents preEraseJob [DfuEvent.eraseStart,
      DfuEvent.eraseProcess 50 100]).erase.started = true ∧
    (applyDfuEvents preEraseJob [DfuEvent.eraseStart,
      DfuEvent.eraseProcess 50 100]).erase.progress = 50 ∧
    (applyDfuEvents preEraseJob [DfuEvent.eraseStart, DfuEvent.eraseProcess 50 100,
      DfuEvent.eraseEnd]).erase.completed = true ∧
    (applyDfuEvents preEraseJob [DfuEvent.eraseStart, DfuEvent.eraseProcess 50 100,
      DfuEvent.eraseEnd]).erase.progress = 100 ∧
    (applyDfuEvents preEraseJob [DfuEvent.eraseStart]).flash.started = false ∧
    (applyDfuEvents preEraseJob [DfuEvent.eraseStart,
      DfuEvent.eraseProcess 50 100]).flash.started = false ∧
    (applyDfuEvents preEraseJob [DfuEvent.eraseStart, DfuEvent.eraseProcess 50 100,
      DfuEvent.eraseEnd]).flash.started = false ∧
    (applyDfuEvents preEraseJob [DfuEvent.eraseStart, DfuEvent.eraseProcess 50 100,
      DfuEvent.eraseEnd, DfuEvent.writeStart]).flash.started = true :=
  erase_event_sequence preEraseJob rfl rfl

/-- Modelled from the spec: `FlashJobManager.create` builds the initial job
snapshot with all applicable stages un-started; the build stage exists only
for the cloudbuild source and the download stage is absent for the
local-file source, since no network fetch occurs (sections 3 and 4.6; the
manager implementation is not under src, only its test suite). -/
def createJob (jid devId : String) (fw : FirmwareDescriptor) : FlashJob :=
  { id := jid
    deviceId := devId
    firmware := fw
    cancelled := false
    connect := freshStage
    build := if fw.source = "cloudbuild" then some freshStage else none
    download := if fw.source = "file" then none else some freshStage
    erase := freshStage
    flash := freshStage }

/-- Modelled from the spec: the file branch of `FirmwareResolver` — look up
a previously registered buffer in the firmware registry by the target acting
as the key; FirmwareNotRegistered when absent (section 4.3; the resolver
implementation is not under src, only its test suite). -/
def resolveFileFirmware (store : List (String × List Nat)) (target : String) :
    Except FlashError (List Nat) :=
  match store.lookup target with
  | some buf => Except.ok buf
  | none => Except.error FlashError.firmwareNotRegistered

/-- Modelled from the spec: for a file-source job the byte buffer handed to
the device write call is exactly the buffer the resolver produced for the
firmware target (sections 4.3 and 4.5). -/
def fileJobWriteBytes (store : List (String × List Nat)) (j : FlashJob) :
    Except FlashError (List Nat) :=
  resolveFileFirmware store j.firmware.target

/-- C2: a flash job created with firmware source file over a registered
buffer has no download stage in its initial snapshot, and the device write
call receives exactly the registered bytes. -/
theorem file_job_download_absent (store : List (String × List Nat))
    (jid devId fid version : String) (buf : List Nat)
    (hreg : store.lookup fid = some buf) :
    (createJob jid devId { source := "file", target := fid, version := version }).download
      = none ∧
    fileJobWriteBytes store
      (createJob jid devId { source := "file", target := fid, version := version })
      = Except.ok buf := by
  constructor
  · simp [createJob]
  · simp [fileJobWriteBytes, createJob, resolveFileFirmware, hreg]

/-- A firmware registry holding one seven-byte buffer, the bytes of the
string ABCDEFG used by the local-file test. -/
def store7 : List (String × List Nat) :=
  [("fw1", [65, 66, 67, 68, 69, 70, 71])]

/-- Witness for C2 at a registry holding a concrete seven-byte buffer. -/
theorem file_job_download_absent_witness :
    (createJob "job1" "some-device-id"
      { source := "file", target := "fw1", version := "local" }).download = none ∧
    fileJobWriteBytes store7
      (createJob "job1" "some-device-id"
        { source := "file", target := "fw1", version := "local" })
      = Except.ok [65, 66, 67, 68, 69, 70, 71] :=
  file_job_download_absent store7 "job1" "some-device-id" "fw1" "local"
    [65, 66, 67, 68, 69, 70, 71] rfl

/-- The record of one cleanup run: whether each of the two close calls was
attempted, and the failures that were logged. -/
structure CloseReport where
  dfuCloseAttempted : Bool
  deviceCloseAttempted : Bool
  loggedFailures : List String
deriving Repr, DecidableEq

/-- Modelled from the spec: `DfuSession.close` attempts to release the DFU
session and the underlying device handle independently, so a rejection of
one close does not prevent attempting the other; failures are logged only
(section 4.4; the session adapter implementation is not under src, only its
test suite, whose mocks reject both close calls). -/
def closeSession (dfuClose deviceClose : Except String Unit) : CloseReport :=
  { dfuCloseAttempted := true
    deviceCloseAttempted := true
    loggedFailures :=
      (match dfuClose with
        | Except.error e => [e]
        | Except.ok _ => []) ++
      (match deviceClose with
        | Except.error e => [e]
        | Except.ok _ => []) }

/-- Modelled from the spec: end-of-write cleanup — the close results never
modify the job snapshot; cleanup failures are best effort and never override
an outcome already reached (sections 4.4 and 7). -/
def finishJob (j : FlashJob) (dfuClose deviceClose : Except String Unit) :
    FlashJob × CloseReport :=
  (j, closeSession dfuClose deviceClose)

/-- C3: after the flash stage has succeeded, both close calls are attempted
independently, and no combination of close failures changes the outcome: the
flash stage still reports completed with no error and the job remains
succeeded. -/
theorem close_failures_best_effort (j : FlashJob)
    (dfuClose deviceClose : Except String Unit)
    (h : jobOutcome j = JobOutcome.succeeded) :
    (finishJob j dfuClose deviceClose).2.dfuCloseAttempted = true ∧
    (finishJob j dfuClose deviceClose).2.deviceCloseAttempted = true ∧
    (finishJob j dfuClose deviceClose).1 = j ∧
    (finishJob j dfuClose deviceClose).1.flash.completed = true ∧
    (finishJob j dfuClose deviceClose).1.flash.error = none ∧
    jobOutcome (finishJob j dfuClose deviceClose).1 = JobOutcome.succeeded := by
  cases he : hasError j with
  | true =>
    unfold jobOutcome at h
    rw [he] at h
    simp at h
  | false =>
    cases hcp : j.flash.completed with
    | false =>
      unfold jobOutcome at h
      rw [he, hcp] at h
      simp at h
    | true =>
      have herr : j.flash.error = none := by
        cases hoe : j.flash.error with
        | none => rfl
        | some e =>
          unfold hasError at he
          rw [hoe] at he
          simp at he
      exact ⟨rfl, rfl, rfl, hcp, herr, h⟩

/-- Witness for C3 at the concrete succeeded job with both close calls
rejecting. -/
theorem close_failures_best_effort_witness :
    (finishJob succeededJob (Except.error "dfu close failed")
      (Except.error "device close failed")).2.dfuCloseAttempted = true ∧
    (finishJob succeededJob (Except.error "dfu close failed")
      (Except.error "device close failed")).2.deviceCloseAttempted = true ∧
    (finishJob succeededJob (Except.error "dfu close failed")
      (Except.error "device close failed")).1 = succeededJob ∧
    (finishJob succeededJob (Except.error "dfu close failed")
      (Except.error "device close failed")).1.flash.completed = true ∧
    (finishJob succeededJob (Except.error "dfu close failed")
      (Except.error "device close failed")).1.flash.error = none ∧
    jobOutcome (finishJob succeededJob (Except.error "dfu close failed")
      (Except.error "device close failed")).1 = JobOutcome.succeeded :=
  close_failures_best_effort succeededJob (Except.error "dfu close failed")
    (Except.error "device close failed") (by decide)

/-- Modelled from the spec: after the unprotect call resolves the session
polls the enumerated device list, bounded by a timeout; each list element is
one poll observation (true when the device is still present) and the list
length is the number of polls the timeout allows.  The device vanishing
within the timeout is the success signal; exhausting the polls without a
disappearance yields UnprotectTimeout (section 4.4; the session adapter
implementation is not under src, only its test suite). -/
def waitForDisconnect : List Bool → Except FlashError Unit
  | [] => Except.error FlashError.unprotectTimeout
  | present :: rest =>
      if present then waitForDisconnect rest else Except.ok ()

/-- Modelled from the spec: the unprotect operation — run the forceUnprotect
driver call, then wait for the device to disconnect (section 4.4). -/
def unprotectDevice (forceUnprotectResult : Except String Unit)
    (polls : List Bool) : Except FlashError Unit :=
  match forceUnprotectResult with
  | Except.error e => Except.error (FlashError.transferError e)
  | Except.ok _ => waitForDisconnect polls

/-- Modelled from the spec: unprotect success starts the erase stage and
unprotect failure attaches its error to the active stage (sections 4.5
and 7). -/
def unprotectThenErase (j : FlashJob) (forceUnprotectResult : Except String Unit)
    (polls : List Bool) : FlashJob :=
  match unprotectDevice forceUnprotectResult polls with
  | Except.ok _ => { j with erase := { j.erase with started := true } }
  | Except.error e => { j with erase := { j.erase with error := some e } }

/-- When some poll observes the device gone, the wait succeeds. -/
theorem waitForDisconnect_ok (polls : List Bool) (h : false ∈ polls) :
    waitForDisconnect polls = Except.ok () := by
  induction polls with
  | nil => cases h
  | cons b rest ih =>
    cases b with
    | false => simp [waitForDisconnect]
    | true =>
      rcases List.mem_cons.mp h with hb | hr
      · exact absurd hb (by decide)
      · simp [waitForDisconnect, ih hr]

/-- C4: when the unprotect call resolves and the device then disappears from
the enumerated list within the timeout, the operation is unprotect success —
not UnprotectTimeout — and the job proceeds to the erase stage. -/
theorem unprotect_disconnect_success (j : FlashJob) (polls : List Bool)
    (hdisc : false ∈ polls) (herr : j.erase.error = none) :
    unprotectDevice (Except.ok ()) polls = Except.ok () ∧
    unprotectDevice (Except.ok ()) polls ≠
      Except.error FlashError.unprotectTimeout ∧
    (unprotectThenErase j (Except.ok ()) polls).erase.started = true ∧
    (unprotectThenErase j (Except.ok ()) polls).erase.error = none := by
  have hu : unprotectDevice (Except.ok ()) polls = Except.ok () := by
    unfold unprotectDevice
    exact waitForDisconnect_ok polls hdisc
  refine ⟨hu, by simp [hu], ?_, ?_⟩
  · simp [unprotectThenErase, hu]
  · simp [unprotectThenErase, hu, herr]

/-- Witness for C4: the device is present at the first poll and gone at the
second, on a fresh pre-erase job. -/
theorem unprotect_disconnect_success_witness :
    unprotectDevice (Except.ok ()) [true, false] = Except.ok () ∧
    unprotectDevice (Except.ok ()) [true, false] ≠
      Except.error FlashError.unprotectTimeout ∧
    (unprotectThenErase preEraseJob (Except.ok ()) [true, false]).erase.started = true ∧
    (unprotectThenErase preEraseJob (Except.ok ()) [true, false]).erase.error = none :=
  unprotect_disconnect_success preEraseJob [true, false] (by decide) rfl

end EdgeTxBuddy
